import Mathlib

/-!
Verification of the inventory-service home controller
(src/src/controllers/home.py).

The controller defines two Flask route handlers:

  def info():     GET /         returns jsonify with keys
                                service, version, description, environment
                                and status 200
  def version():  GET /version  returns jsonify with keys
                                version, service and status 200

Both handlers read values from os.environ via os.environ.get(key, default),
which yields the stored value when the key is present (even when the value
is the empty string) and the default only when the key is absent.

Embedding choices:
  * the process environment is a function String to Option String;
  * os.environ.get is modelled by osEnvironGet below;
  * a JSON object body is an association list of string pairs, which keeps
    both key order and the exact set of keys;
  * each handler is a pure function of the environment; the request-aware
    dispatch functions take a Request argument that the handler body never
    touches, mirroring the Python functions, which take no parameters and
    never reference the flask request object;
  * for frame reasoning, a handler invocation is a step on a process
    state holding the environment, returning the response and the
    (unchanged) state, mirroring that the Python bodies contain no writes.
-/

/-- A process environment: a partial map from variable names to values. -/
def Env : Type := String → Option String

/-- Model of Python os.environ.get(key, default): the stored value when the
key is present (empty string included), the default otherwise. -/
def osEnvironGet (env : Env) (key dflt : String) : String :=
  (env key).getD dflt

/-- An HTTP response as produced by the handlers: a JSON object body given
as an ordered association list, and a status code. -/
structure HttpResponse where
  body : List (String × String)
  status : Nat
deriving DecidableEq, Repr

/-- Handler for GET / (function info in home.py):
returns jsonify of the four fields and status 200. -/
def info (env : Env) : HttpResponse :=
  { body :=
      [ ("service", osEnvironGet env "NAME" "inventory-service"),
        ("version", osEnvironGet env "VERSION" "1.0.0"),
        ("description", "Inventory management microservice for xShop.ai platform"),
        ("environment", osEnvironGet env "FLASK_ENV" "development") ],
    status := 200 }

/-- Handler for GET /version (function version in home.py):
returns jsonify of the two fields and status 200. -/
def version (env : Env) : HttpResponse :=
  { body :=
      [ ("version", osEnvironGet env "VERSION" "1.0.0"),
        ("service", osEnvironGet env "NAME" "inventory-service") ],
    status := 200 }

/-- An HTTP request as the routing layer could deliver it: an optional
body and a query string given as key-value pairs. The Python handlers
take no parameters and never read the flask request object. -/
structure Request where
  reqBody : Option String
  query : List (String × String)

/-- Dispatch of GET / : the handler body never touches the request. -/
def handleInfo (env : Env) (_req : Request) : HttpResponse :=
  info env

/-- Dispatch of GET /version : the handler body never touches the request. -/
def handleVersion (env : Env) (_req : Request) : HttpResponse :=
  version env

/-- Process state visible to the handlers: the environment variables.
The Python handler bodies contain no assignment to os.environ and no
other stateful operation. -/
structure ProcState where
  env : Env

/-- One invocation of GET / as a state transformer: the handler only
reads the environment, so the state comes back unchanged. -/
def infoStep (s : ProcState) : HttpResponse × ProcState :=
  (info s.env, s)

/-- One invocation of GET /version as a state transformer. -/
def versionStep (s : ProcState) : HttpResponse × ProcState :=
  (version s.env, s)

/-- The empty environment: every variable is absent. -/
def noEnv : Env := fun _ => none

/-- An environment in which only NAME is present, bound to the empty
string; VERSION and FLASK_ENV are absent. -/
def nameEmptyEnv : Env :=
  fun k => if k = "NAME" then some "" else none

/-- An environment that sets only FLASK_ENV. -/
def flaskOnlyEnv : Env :=
  fun k => if k = "FLASK_ENV" then some "production" else none

/-- C1: for every process environment, GET / returns status 200 with a body
of exactly four fields, where service is NAME (default inventory-service),
version is VERSION (default 1.0.0), description is the fixed literal, and
environment is FLASK_ENV (default development). -/
theorem info_response_correct (env : Env) :
    (info env).status = 200 ∧
    (info env).body.length = 4 ∧
    (info env).body.lookup "service" = some ((env "NAME").getD "inventory-service") ∧
    (info env).body.lookup "version" = some ((env "VERSION").getD "1.0.0") ∧
    (info env).body.lookup "description" =
      some "Inventory management microservice for xShop.ai platform" ∧
    (info env).body.lookup "environment" = some ((env "FLASK_ENV").getD "development") :=
  ⟨rfl, rfl, rfl, rfl, rfl, rfl⟩

/-- C2: for every process environment, GET /version returns status 200 with
a body of exactly two fields, where version is VERSION (default 1.0.0) and
service is NAME (default inventory-service). -/
theorem version_response_correct (env : Env) :
    (version env).status = 200 ∧
    (version env).body.length = 2 ∧
    (version env).body.lookup "version" = some ((env "VERSION").getD "1.0.0") ∧
    (version env).body.lookup "service" = some ((env "NAME").getD "inventory-service") :=
  ⟨rfl, rfl, rfl, rfl⟩

/-- C3: both handlers are total over the environment state and always
return status 200; no other status is ever produced. -/
theorem handlers_always_200 (env : Env) :
    (info env).status = 200 ∧ (version env).status = 200 :=
  ⟨rfl, rfl⟩

/-- C4: the description field of the GET / response is the fixed literal
for every environment; no variable can change it. -/
theorem info_description_constant (env : Env) :
    (info env).body.lookup "description" =
      some "Inventory management microservice for xShop.ai platform" :=
  rfl

/-- C5: for every environment the service field of GET / equals the service
field of GET /version, and likewise for the version field. -/
theorem endpoints_consistent (env : Env) :
    (info env).body.lookup "service" = (version env).body.lookup "service" ∧
    (info env).body.lookup "version" = (version env).body.lookup "version" :=
  ⟨rfl, rfl⟩

/-- C6: with the environment unchanged, a second invocation of the same
endpoint returns a response identical to the first (status and body). -/
theorem endpoints_idempotent (s : ProcState) :
    (infoStep (infoStep s).2).1 = (infoStep s).1 ∧
    (versionStep (versionStep s).2).1 = (versionStep s).1 :=
  ⟨rfl, rfl⟩

/-- C7: the response of either endpoint does not depend on the request
body or query string: two requests differing only there get identical
responses. -/
theorem handlers_ignore_request (env : Env) (req₁ req₂ : Request) :
    handleInfo env req₁ = handleInfo env req₂ ∧
    handleVersion env req₁ = handleVersion env req₂ :=
  ⟨rfl, rfl⟩

/-- C8: handling a request leaves the process state, in particular every
environment variable, unchanged; nothing is cached across requests. -/
theorem handlers_preserve_state (s : ProcState) :
    (infoStep s).2 = s ∧ (versionStep s).2 = s :=
  ⟨rfl, rfl⟩

/-- C9: per variable, independently of the others: whenever NAME is
present but bound to the empty string, the service field of both
responses is the empty string; whenever VERSION is so bound, the version
field of both responses is the empty string; whenever FLASK_ENV is so
bound, the environment field of GET / is the empty string. In each case
the default literal is not used. -/
theorem empty_string_not_defaulted (env : Env) :
    (env "NAME" = some "" →
      (info env).body.lookup "service" = some "" ∧
      (version env).body.lookup "service" = some "") ∧
    (env "VERSION" = some "" →
      (info env).body.lookup "version" = some "" ∧
      (version env).body.lookup "version" = some "") ∧
    (env "FLASK_ENV" = some "" →
      (info env).body.lookup "environment" = some "") := by
  refine ⟨fun hn => ⟨?_, ?_⟩, fun hv => ⟨?_, ?_⟩, fun hf => ?_⟩ <;>
    simp [info, version, osEnvironGet, List.lookup, *]

/-- Witness for C9 at an environment where only NAME is present (bound
to the empty string) while VERSION and FLASK_ENV are absent: the service
field is empty while the version field still takes its default. -/
theorem empty_string_not_defaulted_witness :
    nameEmptyEnv "NAME" = some "" ∧ nameEmptyEnv "VERSION" = none ∧
    (info nameEmptyEnv).body.lookup "service" = some "" ∧
    (version nameEmptyEnv).body.lookup "service" = some "" ∧
    (info nameEmptyEnv).body.lookup "version" = some "1.0.0" :=
  ⟨by decide, by decide,
    ((empty_string_not_defaulted nameEmptyEnv).1 (by decide)).1,
    ((empty_string_not_defaulted nameEmptyEnv).1 (by decide)).2,
    by decide⟩

/-- C10: the GET /version response depends only on NAME and VERSION, never
on FLASK_ENV, and its body carries no environment field at all. -/
theorem version_independent_of_flask_env (env₁ env₂ : Env)
    (hn : env₁ "NAME" = env₂ "NAME") (hv : env₁ "VERSION" = env₂ "VERSION") :
    version env₁ = version env₂ ∧
    (version env₁).body.lookup "environment" = none := by
  constructor
  · unfold version osEnvironGet
    rw [hn, hv]
  · rfl

/-- Witness for C10 at two environments agreeing on NAME and VERSION but
differing on FLASK_ENV. -/
theorem version_independent_of_flask_env_witness :
    flaskOnlyEnv "NAME" = noEnv "NAME" ∧
    flaskOnlyEnv "VERSION" = noEnv "VERSION" ∧
    flaskOnlyEnv "FLASK_ENV" ≠ noEnv "FLASK_ENV" ∧
    version flaskOnlyEnv = version noEnv :=
  ⟨by decide, by decide, by decide,
    (version_independent_of_flask_env flaskOnlyEnv noEnv (by decide) (by decide)).1⟩
